import Mathlib

/-!
Shallow embedding of the students CRUD service (`src/api.py`).

The service keeps `Student` rows in a single SQL table with an
auto-increment primary key `id`, NOT NULL columns `name`, `email`,
`age`, `cellphone`, and UNIQUE constraints on `email` and `cellphone`.
We model the table as a list of rows plus the auto-increment counter,
ORM objects as records whose columns may transiently hold NULL
(`Option`), JSON request bodies as records whose keys may be absent
(outer `Option`) or bound to JSON null (inner `none`), and each Flask
view function as a pure map from (store, path parameter, parsed body)
to (HTTP response, store).
-/

/-- A JSON scalar as produced and consumed by the marshmallow schema. -/
inductive JVal where
  | jnull : JVal
  | jstr : String → JVal
  | jint : Int → JVal
deriving DecidableEq

/-- An ORM `Student` object (`class Student(db.Model)`, src/api.py:30-36).
A freshly constructed object has `id = none` until the store assigns a key;
any column may transiently hold NULL before a save is attempted. -/
structure Student where
  id : Option Nat
  name : Option String
  email : Option String
  age : Option Int
  cellphone : Option String
deriving DecidableEq

/-- The persisted table plus the auto-increment counter for `id`. -/
structure Store where
  rows : List Student
  nextId : Nat
deriving DecidableEq

/-- SQL equality used by the UNIQUE indexes on `email`/`cellphone`:
NULL compares unequal to everything, including NULL. -/
def sqlEq : Option String → Option String → Bool
  | some a, some b => a == b
  | _, _ => false

/-- The NOT NULL column constraints of the `student` table (src/api.py:33-36). -/
def Student.hasRequired (s : Student) : Bool :=
  s.name.isSome && s.email.isSome && s.age.isSome && s.cellphone.isSome

/-- UNIQUE violation for an INSERT: some existing row already has this
email or cellphone. -/
def Store.conflictsNew (st : Store) (s : Student) : Bool :=
  st.rows.any (fun r => sqlEq r.email s.email || sqlEq r.cellphone s.cellphone)

/-- UNIQUE violation for an UPDATE: some other row (different primary key)
already has this email or cellphone. -/
def Store.conflictsOther (st : Store) (s : Student) : Bool :=
  st.rows.any (fun r => (r.id != s.id) && (sqlEq r.email s.email || sqlEq r.cellphone s.cellphone))

/-- `Student.get_by_id` = `cls.query.get_or_404(id)` (src/api.py:42-44):
primary-key lookup; `none` means the lookup aborted the request with 404. -/
def Student.get_by_id (st : Store) (i : Nat) : Option Student :=
  st.rows.find? (fun r => r.id == some i)

/-- `Student.save` = `db.session.add(self); db.session.commit()`
(src/api.py:46-48).  For a new object (no primary key yet) the commit is an
INSERT assigning the next auto-increment id; for a loaded object it is an
UPDATE of the row with that key.  The commit raises (`.error`) on a NOT NULL
or UNIQUE violation. -/
def Student.save (st : Store) (s : Student) : Except Unit (Store × Student) :=
  if ¬ s.hasRequired then .error ()
  else
    match s.id with
    | none =>
      if st.conflictsNew s then .error ()
      else
        let s' : Student := { s with id := some st.nextId }
        .ok ({ rows := st.rows ++ [s'], nextId := st.nextId + 1 }, s')
    | some _ =>
      if st.conflictsOther s then .error ()
      else .ok ({ st with rows := st.rows.map (fun r => if r.id == s.id then s else r) }, s)

/-- `Student.delete` = `db.session.delete(self); db.session.commit()`
(src/api.py:50-52): removes the row with this object's primary key. -/
def Student.delete (st : Store) (s : Student) : Store :=
  { st with rows := st.rows.filter (fun r => r.id != s.id) }

/-- Serialization of a nullable string column by `fields.Str()`. -/
def optStrVal : Option String → JVal
  | none => .jnull
  | some v => .jstr v

/-- Serialization of a nullable integer column by `fields.Integer()`. -/
def optIntVal : Option Int → JVal
  | none => .jnull
  | some v => .jint v

/-- Serialization of the nullable primary key by `fields.Integer()`. -/
def optNatVal : Option Nat → JVal
  | none => .jnull
  | some v => .jint (Int.ofNat v)

/-- `StudentSchema().dump(student)` (src/api.py:54-59): a flat JSON object
with exactly the five fields. -/
def StudentSchema.dump (s : Student) : List (String × JVal) :=
  [("id", optNatVal s.id), ("name", optStrVal s.name), ("email", optStrVal s.email),
   ("age", optIntVal s.age), ("cellphone", optStrVal s.cellphone)]

/-- Key lookup in a flat JSON object. -/
def jlookup (j : List (String × JVal)) (k : String) : Option JVal :=
  (j.find? (fun p => p.1 == k)).map (fun p => p.2)

/-- Deserialization of a `fields.Str()` key: absent or non-string yields no value. -/
def loadStr (v : Option JVal) : Option String :=
  match v with
  | some (.jstr s) => some s
  | _ => none

/-- Deserialization of a `fields.Integer()` key: absent or non-integer yields no value. -/
def loadInt (v : Option JVal) : Option Int :=
  match v with
  | some (.jint n) => some n
  | _ => none

/-- The field set obtained by deserializing a JSON object through
`StudentSchema` for create/update (the four writable fields). -/
structure LoadedFields where
  name : Option String
  email : Option String
  age : Option Int
  cellphone : Option String
deriving DecidableEq

/-- `StudentSchema().load(obj)` restricted to the four writable fields,
tolerating missing keys. -/
def StudentSchema.load (j : List (String × JVal)) : LoadedFields :=
  { name := loadStr (jlookup j "name"), email := loadStr (jlookup j "email"),
    age := loadInt (jlookup j "age"), cellphone := loadStr (jlookup j "cellphone") }

/-- A parsed JSON request body for the student routes.  For each key the
outer `Option` is presence of the key, the inner `Option` distinguishes
JSON null (`none`) from a typed value. -/
structure StudentBody where
  name : Option (Option String)
  email : Option (Option String)
  age : Option (Option Int)
  cellphone : Option (Option String)
deriving DecidableEq

/-- Python `json_data.get(k)`: `None` both when the key is absent and when
it is bound to JSON null. -/
def jsonGet {α : Type} (f : Option (Option α)) : Option α :=
  f.getD none

/-- Python `json_data.get(k, default)`: the default only when the key is
absent; a key bound to JSON null still yields `None`. -/
def jsonGetD {α : Type} (f : Option (Option α)) (d : α) : Option α :=
  match f with
  | none => some d
  | some v => v

/-- An HTTP response body: plain text (or an HTML error page) or a flat
JSON object. -/
inductive RespBody where
  | text : String → RespBody
  | obj : List (String × JVal) → RespBody
deriving DecidableEq

/-- An HTTP response: status code and body. -/
structure HttpResponse where
  status : Nat
  body : RespBody
deriving DecidableEq

/-- The response produced when `get_or_404` aborts: Werkzeug's stock 404
error page, not any handler-authored body. -/
def notFoundAbort : HttpResponse := ⟨404, .text "404 Not Found"⟩

/-- The response produced when `request.get_json()` raises on an unparseable
body. -/
def badRequestResp : HttpResponse := ⟨400, .text "400 Bad Request"⟩

/-- Flask's default response for an unhandled exception escaping a view
function. -/
def internalErrorResp : HttpResponse := ⟨500, .text "500 Internal Server Error"⟩

/-- Python truthiness of an ORM `Student` instance: the class defines
neither `__bool__` nor `__len__`, so every instance is truthy. -/
def studentTruthy (_ : Student) : Bool := true

/-- `home` (src/api.py:62-72). -/
def home (st : Store) : HttpResponse × Store :=
  (⟨200, .text "<p>Hello from students API!</p>"⟩, st)

/-- `api_health_ok` (src/api.py:85-95). -/
def api_health_ok (st : Store) : HttpResponse × Store :=
  (⟨200, .text "Ok"⟩, st)

/-- `api_health_bad` (src/api.py:98-107): unconditionally `('Fail', 500)`;
the handler never touches the store. -/
def api_health_bad (st : Store) : HttpResponse × Store :=
  (⟨500, .text "Fail"⟩, st)

/-- `get_student` (src/api.py:135-140). -/
def get_student (st : Store) (i : Nat) : HttpResponse × Store :=
  match Student.get_by_id st i with
  | none => (notFoundAbort, st)
  | some s => (⟨200, .obj (StudentSchema.dump s)⟩, st)

/-- `add_student` (src/api.py:143-164).  `save()` is not wrapped in
try/except, so a constraint violation escapes the view and Flask answers
with its default 500. -/
def add_student (st : Store) (body : Option StudentBody) : HttpResponse × Store :=
  match body with
  | none => (badRequestResp, st)
  | some j =>
    let new_student : Student :=
      { id := none, name := jsonGet j.name, email := jsonGet j.email,
        age := jsonGet j.age, cellphone := jsonGet j.cellphone }
    match Student.save st new_student with
    | .error _ => (internalErrorResp, st)
    | .ok (st', s') => (⟨201, .obj (StudentSchema.dump s')⟩, st')

/-- The sequence of guarded assignments of `patch_student`
(src/api.py:185-192): each field is overwritten exactly when
`json_data.get(k) is not None`. -/
def applyNonNull (student : Student) (j : StudentBody) : Student :=
  let s1 := match jsonGet j.name with
    | some v => { student with name := some v }
    | none => student
  let s2 := match jsonGet j.email with
    | some v => { s1 with email := some v }
    | none => s1
  let s3 := match jsonGet j.age with
    | some v => { s2 with age := some v }
    | none => s2
  match jsonGet j.cellphone with
  | some v => { s3 with cellphone := some v }
  | none => s3

/-- `patch_student` (src/api.py:167-201). -/
def patch_student (st : Store) (i : Nat) (body : Option StudentBody) : HttpResponse × Store :=
  match Student.get_by_id st i with
  | none => (notFoundAbort, st)
  | some student =>
    if ¬ studentTruthy student then (⟨404, .text "Student not found"⟩, st)
    else
      match body with
      | none => (badRequestResp, st)
      | some j =>
        match Student.save st (applyNonNull student j) with
        | .error _ => (⟨500, .text "Fail saving to db"⟩, st)
        | .ok (st', s') => (⟨200, .obj (StudentSchema.dump s')⟩, st')

/-- The full-replace assignments of `put_student` (src/api.py:222-225):
every field from `json_data.get(k, default)`. -/
def applyFullReplace (student : Student) (j : StudentBody) : Student :=
  { student with
    name := jsonGetD j.name "", email := jsonGetD j.email "",
    age := jsonGetD j.age 0, cellphone := jsonGetD j.cellphone "" }

/-- `put_student` (src/api.py:204-234). -/
def put_student (st : Store) (i : Nat) (body : Option StudentBody) : HttpResponse × Store :=
  match Student.get_by_id st i with
  | none => (notFoundAbort, st)
  | some student =>
    if ¬ studentTruthy student then (⟨404, .text "Student not found"⟩, st)
    else
      match body with
      | none => (badRequestResp, st)
      | some j =>
        match Student.save st (applyFullReplace student j) with
        | .error _ => (⟨500, .text "Fail saving to db"⟩, st)
        | .ok (st', s') => (⟨200, .obj (StudentSchema.dump s')⟩, st')

/-- `delete_student` (src/api.py:237-257). -/
def delete_student (st : Store) (i : Nat) : HttpResponse × Store :=
  match Student.get_by_id st i with
  | none => (notFoundAbort, st)
  | some student =>
    if ¬ studentTruthy student then (⟨404, .text "Student not found"⟩, st)
    else (⟨200, .text "deleted"⟩, Student.delete st student)

/-- The HTTP methods written in the source for the `/api-json` rule
(src/api.py:75): `methods=['common']`, the documentation tag pasted where
the verb list belongs. -/
def api_json_route_methods : List String := ["common"]

/-- ASCII upper-casing of a method name (the methods here are pure ASCII). -/
def upperAscii (s : String) : String := String.mk (s.data.map Char.toUpper)

/-- Flask's normalization of a route's method list: methods are
upper-cased, `OPTIONS` is added automatically, and `HEAD` is added when
`GET` is allowed. -/
def flaskAllowedMethods (ms : List String) : List String :=
  let up := ms.map upperAscii
  up ++ ["OPTIONS"] ++ (if up.contains "GET" then ["HEAD"] else [])

/-- `api_doc_json` (src/api.py:75-77): returns the generated OpenAPI
document (`docs.swagger_json()`, an external collaborator, passed in as a
parameter) with status 200. -/
def api_doc_json (swaggerDoc : List (String × JVal)) (st : Store) : HttpResponse × Store :=
  (⟨200, .obj swaggerDoc⟩, st)

/-- Werkzeug's dispatch for the `/api-json` rule: a request whose method is
not in the registered list is answered with 405 Method Not Allowed before
the view runs. -/
def dispatch_api_json (swaggerDoc : List (String × JVal)) (method : String) (st : Store) :
    HttpResponse × Store :=
  if (flaskAllowedMethods api_json_route_methods).contains method then
    api_doc_json swaggerDoc st
  else (⟨405, .text "405 Method Not Allowed"⟩, st)

/-! ## Helper lemmas -/

theorem get_by_id_some_id (st : Store) (i : Nat) (s : Student)
    (h : Student.get_by_id st i = some s) : s.id = some i := by
  have hp := List.find?_some h
  simpa using hp

theorem find?_map_replace (rows : List Student) (i : Nat) (s' : Student)
    (hid : s'.id = some i) (h : ∃ x ∈ rows, x.id = some i) :
    (rows.map (fun r => if r.id == some i then s' else r)).find?
      (fun r => r.id == some i) = some s' := by
  induction rows with
  | nil => simp at h
  | cons r rs ih =>
    by_cases hr : (r.id == some i) = true
    · simp [List.find?, hr, hid]
    · have hr' : (r.id == some i) = false := by simpa using hr
      have htail : ∃ x ∈ rs, x.id = some i := by
        obtain ⟨x, hx, hxi⟩ := h
        rcases List.mem_cons.mp hx with rfl | hx'
        · exact absurd hxi (by simpa using hr')
        · exact ⟨x, hx', hxi⟩
      simp only [List.map_cons, List.find?, hr', Bool.false_eq_true, if_false]
      exact ih htail

theorem find?_append_sing (rows : List Student) (s : Student) (p : Student → Bool)
    (h : ∀ r ∈ rows, p r = false) (hs : p s = true) :
    (rows ++ [s]).find? p = some s := by
  induction rows with
  | nil => simp [List.find?, hs]
  | cons r rs ih =>
    have hr := h r (List.mem_cons_self r rs)
    simp only [List.cons_append, List.find?, hr]
    exact ih (fun x hx => h x (List.mem_cons_of_mem r hx))

theorem jsonGetD_isSome {α : Type} (f : Option (Option α)) (d : α) (h : f ≠ some none) :
    (jsonGetD f d).isSome = true := by
  match f with
  | none => simp [jsonGetD]
  | some none => exact absurd rfl h
  | some (some a) => simp [jsonGetD]

theorem applyNonNull_eq (s : Student) (j : StudentBody) :
    applyNonNull s j =
      ⟨s.id, (jsonGet j.name).or s.name, (jsonGet j.email).or s.email,
       (jsonGet j.age).or s.age, (jsonGet j.cellphone).or s.cellphone⟩ := by
  unfold applyNonNull
  cases hn : jsonGet j.name <;> cases he : jsonGet j.email <;>
    cases ha : jsonGet j.age <;> cases hc : jsonGet j.cellphone <;>
      simp [Option.or]

/-! ## Claims -/

/-- Claim C9: for every store state, GET /api/health-check/bad returns
status 500 with plain-text body "Fail", independently of the store's
contents, which it leaves unchanged. -/
theorem health_bad_always_fail (st : Store) :
    api_health_bad st = (⟨500, .text "Fail"⟩, st) := rfl

/-- Claim C10: in the PATCH, PUT, and DELETE handlers the explicit
`if not student: return 404` branch after the id lookup is unreachable:
for every store, id, and body, none of the three handlers ever produces
that branch's body "Student not found" (`Student.get_by_id` either aborts
with the stock 404 page or yields a truthy instance). -/
theorem notfound_branch_unreachable (st : Store) (i : Nat) (body : Option StudentBody) :
    (patch_student st i body).1.body ≠ .text "Student not found" ∧
    (put_student st i body).1.body ≠ .text "Student not found" ∧
    (delete_student st i).1.body ≠ .text "Student not found" := by
  refine ⟨?_, ?_, ?_⟩
  · unfold patch_student
    cases hf : Student.get_by_id st i with
    | none => simp [notFoundAbort]
    | some s =>
      simp only [studentTruthy, not_true, if_false]
      cases body with
      | none => simp [badRequestResp]
      | some j =>
        cases hs : Student.save st (applyNonNull s j) with
        | error e => simp [hs]
        | ok p =>
          obtain ⟨st2, s2⟩ := p
          simp [hs]
  · unfold put_student
    cases hf : Student.get_by_id st i with
    | none => simp [notFoundAbort]
    | some s =>
      simp only [studentTruthy, not_true, if_false]
      cases body with
      | none => simp [badRequestResp]
      | some j =>
        cases hs : Student.save st (applyFullReplace s j) with
        | error e => simp [hs]
        | ok p =>
          obtain ⟨st2, s2⟩ := p
          simp [hs]
  · unfold delete_student
    cases hf : Student.get_by_id st i with
    | none => simp [notFoundAbort]
    | some s => simp [studentTruthy]

/-- Claim C3: for every id absent from the store, GET, PATCH, PUT and
DELETE on that id all fail with 404 (the stock abort page raised by the
lookup itself, before any body is consumed — the body-taking handlers
return 404 for every body, parseable or not) and leave the store
unchanged. -/
theorem missing_id_404 (st : Store) (i : Nat) (body : Option StudentBody)
    (h : Student.get_by_id st i = none) :
    get_student st i = (notFoundAbort, st) ∧
    patch_student st i body = (notFoundAbort, st) ∧
    put_student st i body = (notFoundAbort, st) ∧
    delete_student st i = (notFoundAbort, st) ∧
    notFoundAbort.status = 404 := by
  unfold get_student patch_student put_student delete_student
  simp [h, notFoundAbort]

/-- Witness for C3 at the empty store and id 7 with an unparseable body. -/
theorem missing_id_404_witness :
    get_student ⟨[], 0⟩ 7 = (notFoundAbort, ⟨[], 0⟩) ∧
    patch_student ⟨[], 0⟩ 7 none = (notFoundAbort, ⟨[], 0⟩) ∧
    put_student ⟨[], 0⟩ 7 none = (notFoundAbort, ⟨[], 0⟩) ∧
    delete_student ⟨[], 0⟩ 7 = (notFoundAbort, ⟨[], 0⟩) ∧
    notFoundAbort.status = 404 :=
  missing_id_404 ⟨[], 0⟩ 7 none (by decide)

/-- Claim C6: DELETE on an id present in the store answers 200 with body
"deleted", removes exactly the record with that id (every other record is
retained), and a subsequent GET on the same id hits the 404 abort. -/
theorem delete_existing (st : Store) (i : Nat) (s : Student)
    (h : Student.get_by_id st i = some s) :
    (delete_student st i).1 = ⟨200, .text "deleted"⟩ ∧
    (delete_student st i).2.rows = st.rows.filter (fun r => r.id != some i) ∧
    (∀ r ∈ st.rows, r.id ≠ some i → r ∈ (delete_student st i).2.rows) ∧
    Student.get_by_id (delete_student st i).2 i = none ∧
    get_student (delete_student st i).2 i = (notFoundAbort, (delete_student st i).2) := by
  have hid := get_by_id_some_id st i s h
  have hdel : delete_student st i = (⟨200, .text "deleted"⟩, Student.delete st s) := by
    unfold delete_student
    simp [h, studentTruthy]
  have hrows : (delete_student st i).2.rows = st.rows.filter (fun r => r.id != some i) := by
    rw [hdel]
    simp [Student.delete, hid]
  have hnone : Student.get_by_id (delete_student st i).2 i = none := by
    unfold Student.get_by_id
    rw [hrows]
    apply List.find?_eq_none.mpr
    intro x hx
    have hxmem := List.mem_filter.mp hx
    simp only [bne_iff_ne, ne_eq] at hxmem
    simp [hxmem.2]
  refine ⟨by rw [hdel], hrows, ?_, hnone, ?_⟩
  · intro r hr hne
    rw [hrows]
    exact List.mem_filter.mpr ⟨hr, by simpa using hne⟩
  · unfold get_student
    simp [hnone]

/-- Witness for C6: deleting id 1 from a two-row store keeps the other row
and makes a repeated GET 404. -/
theorem delete_existing_witness :
    (delete_student ⟨[⟨some 1, some "A", some "a@x", some 30, some "111"⟩,
        ⟨some 2, some "B", some "b@x", some 25, some "222"⟩], 3⟩ 1).1 =
      ⟨200, .text "deleted"⟩ ∧
    (delete_student ⟨[⟨some 1, some "A", some "a@x", some 30, some "111"⟩,
        ⟨some 2, some "B", some "b@x", some 25, some "222"⟩], 3⟩ 1).2.rows =
      List.filter (fun r => r.id != some 1)
        [⟨some 1, some "A", some "a@x", some 30, some "111"⟩,
         ⟨some 2, some "B", some "b@x", some 25, some "222"⟩] ∧
    (∀ r ∈ [⟨some 1, some "A", some "a@x", some 30, some "111"⟩,
        (⟨some 2, some "B", some "b@x", some 25, some "222"⟩ : Student)], r.id ≠ some 1 →
      r ∈ (delete_student ⟨[⟨some 1, some "A", some "a@x", some 30, some "111"⟩,
        ⟨some 2, some "B", some "b@x", some 25, some "222"⟩], 3⟩ 1).2.rows) ∧
    Student.get_by_id (delete_student ⟨[⟨some 1, some "A", some "a@x", some 30, some "111"⟩,
        ⟨some 2, some "B", some "b@x", some 25, some "222"⟩], 3⟩ 1).2 1 = none ∧
    get_student (delete_student ⟨[⟨some 1, some "A", some "a@x", some 30, some "111"⟩,
        ⟨some 2, some "B", some "b@x", some 25, some "222"⟩], 3⟩ 1).2 1 =
      (notFoundAbort,
        (delete_student ⟨[⟨some 1, some "A", some "a@x", some 30, some "111"⟩,
          ⟨some 2, some "B", some "b@x", some 25, some "222"⟩], 3⟩ 1).2) :=
  delete_existing _ 1 ⟨some 1, some "A", some "a@x", some 30, some "111"⟩ (by decide)

/-- Claim C7: serializing any Student through `StudentSchema` and
deserializing the resulting JSON object recovers the original values of
the four writable fields. -/
theorem schema_round_trip (s : Student) (nm em : String) (ag : Int) (cp : String)
    (hn : s.name = some nm) (he : s.email = some em)
    (ha : s.age = some ag) (hc : s.cellphone = some cp) :
    StudentSchema.load (StudentSchema.dump s) = ⟨some nm, some em, some ag, some cp⟩ := by
  simp [StudentSchema.load, StudentSchema.dump, jlookup, List.find?, hn, he, ha, hc,
    optStrVal, optIntVal, optNatVal, loadStr, loadInt]

/-- Witness for C7 at a concrete record. -/
theorem schema_round_trip_witness :
    StudentSchema.load (StudentSchema.dump ⟨some 4, some "Dana", some "d@x", some 19, some "333"⟩) =
      ⟨some "Dana", some "d@x", some 19, some "333"⟩ :=
  schema_round_trip ⟨some 4, some "Dana", some "d@x", some 19, some "333"⟩
    "Dana" "d@x" 19 "333" (by decide) (by decide) (by decide) (by decide)

/-- Claim C8, evaluated on the code: the `/api-json` rule is registered
with `methods=['common']`, so a GET request is rejected by dispatch with
405 Method Not Allowed and never reaches the view; the documented
200-with-OpenAPI-JSON answer is unreachable for GET, whatever the
generated document and the store are. -/
theorem api_json_get_405 (doc : List (String × JVal)) (st : Store) :
    dispatch_api_json doc "GET" st = (⟨405, .text "405 Method Not Allowed"⟩, st) := by
  have hc : (flaskAllowedMethods api_json_route_methods).contains "GET" = false := by decide
  unfold dispatch_api_json
  rw [hc]
  simp

/-- Claim C5: POST /api/students/add with an email or cellphone already
present in the store fails with 500 (the constraint violation escapes the
view, `save` is not wrapped in try/except) and the store is unchanged. -/
theorem create_conflict_500 (st : Store) (j : StudentBody)
    (hconf : st.conflictsNew
      ⟨none, jsonGet j.name, jsonGet j.email, jsonGet j.age, jsonGet j.cellphone⟩ = true) :
    (add_student st (some j)).1.status = 500 ∧ (add_student st (some j)).2 = st := by
  unfold add_student
  by_cases hreq : Student.hasRequired
      ⟨none, jsonGet j.name, jsonGet j.email, jsonGet j.age, jsonGet j.cellphone⟩ = true
  · simp [Student.save, hreq, hconf, internalErrorResp]
  · have hreq' : Student.hasRequired
        ⟨none, jsonGet j.name, jsonGet j.email, jsonGet j.age, jsonGet j.cellphone⟩ = false := by
      simpa using hreq
    simp [Student.save, hreq', internalErrorResp]

/-- Witness for C5: inserting a second student with the already-present
email "a@x" answers 500 and leaves the one-row store as it was. -/
theorem create_conflict_500_witness :
    (add_student ⟨[⟨some 1, some "A", some "a@x", some 30, some "111"⟩], 2⟩
      (some ⟨some (some "B"), some (some "a@x"), some (some 20), some (some "999")⟩)).1.status = 500 ∧
    (add_student ⟨[⟨some 1, some "A", some "a@x", some 30, some "111"⟩], 2⟩
      (some ⟨some (some "B"), some (some "a@x"), some (some 20), some (some "999")⟩)).2 =
      ⟨[⟨some 1, some "A", some "a@x", some 30, some "111"⟩], 2⟩ :=
  create_conflict_500 ⟨[⟨some 1, some "A", some "a@x", some 30, some "111"⟩], 2⟩
    ⟨some (some "B"), some (some "a@x"), some (some 20), some (some "999")⟩ (by decide)

/-- Claim C4: POST /api/students/add with the four fields supplied and no
uniqueness clash answers 201 with the created record; the new record's id
is the fresh auto-increment value, distinct from every id already in the
store, and `get_by_id` on it returns exactly the input fields. -/
theorem create_then_get (st : Store) (j : StudentBody) (nm em : String) (ag : Int) (cp : String)
    (hn : j.name = some (some nm)) (he : j.email = some (some em))
    (ha : j.age = some (some ag)) (hc : j.cellphone = some (some cp))
    (hconf : st.conflictsNew ⟨none, some nm, some em, some ag, some cp⟩ = false)
    (hfresh : ∀ r ∈ st.rows, r.id ≠ some st.nextId) :
    (add_student st (some j)).1 =
      ⟨201, .obj (StudentSchema.dump ⟨some st.nextId, some nm, some em, some ag, some cp⟩)⟩ ∧
    Student.get_by_id (add_student st (some j)).2 st.nextId =
      some ⟨some st.nextId, some nm, some em, some ag, some cp⟩ ∧
    (∀ r ∈ st.rows, r.id ≠ some st.nextId) := by
  have hjn : jsonGet j.name = some nm := by rw [hn]; rfl
  have hje : jsonGet j.email = some em := by rw [he]; rfl
  have hja : jsonGet j.age = some ag := by rw [ha]; rfl
  have hjc : jsonGet j.cellphone = some cp := by rw [hc]; rfl
  have hsave : Student.save st ⟨none, some nm, some em, some ag, some cp⟩ =
      .ok (⟨st.rows ++ [⟨some st.nextId, some nm, some em, some ag, some cp⟩], st.nextId + 1⟩,
           ⟨some st.nextId, some nm, some em, some ag, some cp⟩) := by
    unfold Student.save
    simp [Student.hasRequired, hconf]
  have hget : Student.get_by_id
      ⟨st.rows ++ [⟨some st.nextId, some nm, some em, some ag, some cp⟩], st.nextId + 1⟩
      st.nextId = some ⟨some st.nextId, some nm, some em, some ag, some cp⟩ := by
    unfold Student.get_by_id
    apply find?_append_sing
    · intro r hr
      simpa using hfresh r hr
    · simp
  unfold add_student
  simp only [hjn, hje, hja, hjc, hsave]
  exact ⟨trivial, hget, hfresh⟩

/-- Witness for C4: creating a student in a one-row store assigns id 2 and
a get on id 2 returns the posted fields. -/
theorem create_then_get_witness :
    (add_student ⟨[⟨some 1, some "A", some "a@x", some 30, some "111"⟩], 2⟩
      (some ⟨some (some "B"), some (some "b@x"), some (some 20), some (some "222")⟩)).1 =
      ⟨201, .obj (StudentSchema.dump ⟨some 2, some "B", some "b@x", some 20, some "222"⟩)⟩ ∧
    Student.get_by_id
      (add_student ⟨[⟨some 1, some "A", some "a@x", some 30, some "111"⟩], 2⟩
        (some ⟨some (some "B"), some (some "b@x"), some (some 20), some (some "222")⟩)).2 2 =
      some ⟨some 2, some "B", some "b@x", some 20, some "222"⟩ ∧
    (∀ r ∈ [(⟨some 1, some "A", some "a@x", some 30, some "111"⟩ : Student)], r.id ≠ some 2) :=
  create_then_get ⟨[⟨some 1, some "A", some "a@x", some 30, some "111"⟩], 2⟩
    ⟨some (some "B"), some (some "b@x"), some (some 20), some (some "222")⟩
    "B" "b@x" 20 "222" (by decide) (by decide) (by decide) (by decide) (by decide) (by decide)

/-- Claim C1: PUT /api/students/change/{id} on an existing id overwrites
all four writable fields from the body, substituting the default '' for a
missing name/email/cellphone key and 0 for a missing age key — in
particular a body carrying only "name" blanks email and cellphone and
zeroes age.  Stated on the success path: no key of the body is JSON null
and the replacement does not clash with another row's unique fields
(otherwise the save raises and the route answers 500, per the spec's
"500 on save failure"). -/
theorem put_full_replace (st : Store) (i : Nat) (s : Student) (j : StudentBody)
    (hfind : Student.get_by_id st i = some s)
    (hn : j.name ≠ some none) (he : j.email ≠ some none)
    (ha : j.age ≠ some none) (hc : j.cellphone ≠ some none)
    (hconf : st.conflictsOther (applyFullReplace s j) = false) :
    (put_student st i (some j)).1.status = 200 ∧
    Student.get_by_id (put_student st i (some j)).2 i =
      some { s with name := jsonGetD j.name "", email := jsonGetD j.email "",
                    age := jsonGetD j.age 0, cellphone := jsonGetD j.cellphone "" } := by
  have hid := get_by_id_some_id st i s hfind
  have hid' : (applyFullReplace s j).id = some i := hid
  have hreq : (applyFullReplace s j).hasRequired = true := by
    unfold applyFullReplace Student.hasRequired
    simp [jsonGetD_isSome _ _ hn, jsonGetD_isSome _ _ he,
      jsonGetD_isSome _ _ ha, jsonGetD_isSome _ _ hc]
  have hsave : Student.save st (applyFullReplace s j) =
      .ok (⟨st.rows.map (fun r => if r.id == some i then applyFullReplace s j else r),
            st.nextId⟩, applyFullReplace s j) := by
    unfold Student.save
    simp [hreq, hid', hconf]
  have hmem : ∃ x ∈ st.rows, x.id = some i :=
    ⟨s, List.mem_of_find?_eq_some hfind, hid⟩
  have hget : Student.get_by_id
      ⟨st.rows.map (fun r => if r.id == some i then applyFullReplace s j else r), st.nextId⟩ i =
      some (applyFullReplace s j) := by
    unfold Student.get_by_id
    exact find?_map_replace st.rows i (applyFullReplace s j) hid' hmem
  have hput : put_student st i (some j) =
      (⟨200, .obj (StudentSchema.dump (applyFullReplace s j))⟩,
       ⟨st.rows.map (fun r => if r.id == some i then applyFullReplace s j else r), st.nextId⟩) := by
    unfold put_student
    simp [hfind, studentTruthy, hsave]
  refine ⟨by rw [hput], ?_⟩
  rw [hput]
  exact hget

/-- Witness for C1: PUT with body carrying only name "X" on the only
record rewrites it to name "X", email "", age 0, cellphone "". -/
theorem put_full_replace_witness :
    (put_student ⟨[⟨some 1, some "A", some "a@x", some 30, some "111"⟩], 2⟩ 1
      (some ⟨some (some "X"), none, none, none⟩)).1.status = 200 ∧
    Student.get_by_id
      (put_student ⟨[⟨some 1, some "A", some "a@x", some 30, some "111"⟩], 2⟩ 1
        (some ⟨some (some "X"), none, none, none⟩)).2 1 =
      some ⟨some 1, some "X", some "", some 0, some ""⟩ :=
  put_full_replace ⟨[⟨some 1, some "A", some "a@x", some 30, some "111"⟩], 2⟩ 1
    ⟨some 1, some "A", some "a@x", some 30, some "111"⟩
    ⟨some (some "X"), none, none, none⟩
    (by decide) (by decide) (by decide) (by decide) (by decide) (by decide)

/-- Claim C2: PATCH /api/students/modify/{id} on an existing id applies
exactly the fields present and non-null in the body (each updated field
takes the body's value, every other field keeps its prior value) and
retains every other record; in particular a body carrying only age updates
age alone.  Stated on the success path: the patched record passes the
NOT NULL and uniqueness checks of the save. -/
theorem patch_partial_update (st : Store) (i : Nat) (s : Student) (j : StudentBody)
    (hfind : Student.get_by_id st i = some s)
    (hreq : (applyNonNull s j).hasRequired = true)
    (hconf : st.conflictsOther (applyNonNull s j) = false) :
    (patch_student st i (some j)).1.status = 200 ∧
    Student.get_by_id (patch_student st i (some j)).2 i =
      some ⟨s.id, (jsonGet j.name).or s.name, (jsonGet j.email).or s.email,
            (jsonGet j.age).or s.age, (jsonGet j.cellphone).or s.cellphone⟩ ∧
    (∀ r ∈ st.rows, r.id ≠ some i → r ∈ (patch_student st i (some j)).2.rows) := by
  have hid := get_by_id_some_id st i s hfind
  have hid' : (applyNonNull s j).id = some i := by rw [applyNonNull_eq]; exact hid
  have hsave : Student.save st (applyNonNull s j) =
      .ok (⟨st.rows.map (fun r => if r.id == some i then applyNonNull s j else r), st.nextId⟩,
           applyNonNull s j) := by
    unfold Student.save
    simp [hreq, hid', hconf]
  have hmem : ∃ x ∈ st.rows, x.id = some i :=
    ⟨s, List.mem_of_find?_eq_some hfind, hid⟩
  have hget : Student.get_by_id
      ⟨st.rows.map (fun r => if r.id == some i then applyNonNull s j else r), st.nextId⟩ i =
      some (applyNonNull s j) := by
    unfold Student.get_by_id
    exact find?_map_replace st.rows i (applyNonNull s j) hid' hmem
  have hpatch : patch_student st i (some j) =
      (⟨200, .obj (StudentSchema.dump (applyNonNull s j))⟩,
       ⟨st.rows.map (fun r => if r.id == some i then applyNonNull s j else r), st.nextId⟩) := by
    unfold patch_student
    simp [hfind, studentTruthy, hsave]
  refine ⟨by rw [hpatch], ?_, ?_⟩
  · rw [hpatch]
    rw [hget, applyNonNull_eq]
  · intro r hr hne
    rw [hpatch]
    have hne' : (r.id == some i) = false := by simpa using hne
    have hfix : (if r.id == some i then applyNonNull s j else r) = r := by simp [hne']
    exact List.mem_map.mpr ⟨r, hr, hfix⟩

/-- Witness for C2: PATCH with body carrying only age 21 updates age alone
and keeps the other record. -/
theorem patch_partial_update_witness :
    (patch_student ⟨[⟨some 1, some "A", some "a@x", some 30, some "111"⟩,
        ⟨some 2, some "B", some "b@x", some 25, some "222"⟩], 3⟩ 1
      (some ⟨none, none, some (some 21), none⟩)).1.status = 200 ∧
    Student.get_by_id
      (patch_student ⟨[⟨some 1, some "A", some "a@x", some 30, some "111"⟩,
          ⟨some 2, some "B", some "b@x", some 25, some "222"⟩], 3⟩ 1
        (some ⟨none, none, some (some 21), none⟩)).2 1 =
      some ⟨some 1, some "A", some "a@x", some 21, some "111"⟩ ∧
    (∀ r ∈ [⟨some 1, some "A", some "a@x", some 30, some "111"⟩,
        (⟨some 2, some "B", some "b@x", some 25, some "222"⟩ : Student)], r.id ≠ some 1 →
      r ∈ (patch_student ⟨[⟨some 1, some "A", some "a@x", some 30, some "111"⟩,
          ⟨some 2, some "B", some "b@x", some 25, some "222"⟩], 3⟩ 1
        (some ⟨none, none, some (some 21), none⟩)).2.rows) :=
  patch_partial_update ⟨[⟨some 1, some "A", some "a@x", some 30, some "111"⟩,
      ⟨some 2, some "B", some "b@x", some 25, some "222"⟩], 3⟩ 1
    ⟨some 1, some "A", some "a@x", some 30, some "111"⟩
    ⟨none, none, some (some 21), none⟩
    (by decide) (by decide) (by decide)
